import Mathlib

/-!
# IDAKLU solver options: validation of the jacobian / linear solver / preconditioner triple

A shallow embedding of `Options::Options(py::dict)` from
`pybamm/solvers/c_solvers/idaklu/options.cpp`, followed by the properties the
specification states about it.

The constructor reads seven entries from a dictionary, classifies the jacobian,
checks the linear solver against the jacobian, and resolves the preconditioner.
Each `throw std::domain_error(msg)` becomes an `Except.error` carrying the string
handed to the exception; the message a caller reads is `what()`, the C string of
that argument, which ends at its first NUL character. The four error kinds of the
specification label the throw sites.
-/

set_option linter.dupNamespace false

namespace Idaklu

/-- The dictionary handed to the constructor, after the seven `cast<...>()` calls of
the member initialiser list (lines 8-14). The `int` entries are only ever copied,
never computed with, so they are kept as integers. -/
structure RawConfiguration where
  print_stats : Bool
  jacobian : String
  preconditioner : String
  linsol_max_iterations : Int
  linear_solver : String
  precon_half_bandwidth : Int
  precon_half_bandwidth_keep : Int
  deriving DecidableEq

/-- The members of a constructed `Options` object: the seven members initialised at
lines 8-14 and the two flags assigned in the constructor body. -/
structure Options where
  print_stats : Bool
  jacobian : String
  preconditioner : String
  linsol_max_iterations : Int
  linear_solver : String
  precon_half_bandwidth : Int
  precon_half_bandwidth_keep : Int
  using_sparse_matrix : Bool
  using_iterative_solver : Bool
  deriving DecidableEq

/-- The error taxonomy of the specification; every value is a `std::domain_error`
in the source. -/
inductive ErrorKind where
  | InvalidJacobianType
  | IncompatibleLinearSolver
  | UnknownLinearSolver
  | InvalidPreconditioner
  deriving DecidableEq

/-- A thrown `std::domain_error`: the kind labels the throw site, `what_arg` is the
`std::string` passed to the exception's constructor. -/
structure ConfigurationError where
  kind : ErrorKind
  what_arg : String
  deriving DecidableEq

/-- The NUL character, which terminates a C string. -/
def NUL : Char := Char.ofNat 0

/-- The C string of a `std::string`, as `c_str()` exposes it to a reader: the
characters before the first NUL. -/
def c_str (s : String) : String :=
  ⟨s.data.takeWhile (fun c => decide (c ≠ NUL))⟩

/-- The message of a thrown `std::domain_error` as `what()` returns it: the C string
of the constructor's argument. -/
def ConfigurationError.what (e : ConfigurationError) : String :=
  c_str e.what_arg

/-- The string built at lines 31-32 and passed to `std::domain_error`. -/
def unknownJacobianWhat (jacobian : String) : String :=
  "Unknown jacobian type \"" ++ jacobian ++
  "\". Should be one of \"sparse\", \"dense\", \"matrix-free\" or \"none\"."

/-- The string literal at lines 57-58, passed to `std::domain_error`. -/
def sparseSolverWhat : String :=
  "Unknown linear solver or incompatible options. For a sparse jacobian " ++
  "please use the SUNLinSol_KLU linear solver"

/-- The string literal at lines 64-66, passed to `std::domain_error`. -/
def matrixFreeSolverWhat : String :=
  "Unknown linear solver or incompatible options. For a matrix-free jacobian " ++
  "please use one of the iterative linear solvers: \"SUNLinSol_SPBCGS\", " ++
  "\"SUNLinSol_SPFGMR\", \"SUNLinSol_SPGMR\", or \"SUNLinSol_SPTFQMR\"."

/-- The string built at lines 72-75 and passed to `std::domain_error`. -/
def unknownSolverWhat (linear_solver : String) : String :=
  "Unknown linear solver \"" ++ linear_solver ++
  ("\", use one of \"SUNLinSol_KLU\", \"SUNLinSol_Dense\", " ++
   "\"SUNLinSol_LapackDense\", \"SUNLinSol_SPBCGS\", \"SUNLinSol_SPFGMR\", " ++
   "\"SUNLinSol_SPGMR\", or \"SUNLinSol_SPTFQMR\"")

/-- The string built at lines 84-85 and passed to `std::domain_error`. -/
def unknownPreconditionerWhat (preconditioner : String) : String :=
  "Unknown preconditioner \"" ++ preconditioner ++
  "\", use one of \"BBDP\" or \"none\""

/-- Lines 17-34: the jacobian classification. Returns `using_sparse_matrix`, which
starts as `true` and is cleared only in the `"dense"` / `"none"` branch. -/
def jacobianStage (jacobian : String) : Except ConfigurationError Bool :=
  let using_sparse_matrix := true
  if jacobian = "sparse" then
    .ok using_sparse_matrix
  else if jacobian = "dense" ∨ jacobian = "none" then
    .ok false
  else if jacobian = "matrix-free" then
    .ok using_sparse_matrix
  else
    .error ⟨ErrorKind.InvalidJacobianType, unknownJacobianWhat jacobian⟩

/-- Lines 36-77: the linear-solver compatibility chain. Returns
`using_iterative_solver`, which starts as `false` and is set only in the Krylov
branch. -/
def linearSolverStage (jacobian linear_solver : String) : Except ConfigurationError Bool :=
  let using_iterative_solver := false
  if linear_solver = "SUNLinSol_Dense" ∧ jacobian = "dense" then
    .ok using_iterative_solver
  else if linear_solver = "SUNLinSol_LapackDense" ∧ jacobian = "dense" then
    .ok using_iterative_solver
  else if linear_solver = "SUNLinSol_KLU" ∧ jacobian = "sparse" then
    .ok using_iterative_solver
  else if (linear_solver = "SUNLinSol_SPBCGS" ∨
           linear_solver = "SUNLinSol_SPFGMR" ∨
           linear_solver = "SUNLinSol_SPGMR" ∨
           linear_solver = "SUNLinSol_SPTFQMR") ∧
          (jacobian = "sparse" ∨ jacobian = "matrix-free") then
    .ok true
  else if jacobian = "sparse" then
    .error ⟨ErrorKind.IncompatibleLinearSolver, sparseSolverWhat⟩
  else if jacobian = "matrix-free" then
    .error ⟨ErrorKind.IncompatibleLinearSolver, matrixFreeSolverWhat⟩
  else
    .error ⟨ErrorKind.UnknownLinearSolver, unknownSolverWhat linear_solver⟩

/-- Lines 79-92: the preconditioner resolution. Returns the final value of the
`preconditioner` member. -/
def preconditionerStage (using_iterative_solver : Bool) (preconditioner : String) :
    Except ConfigurationError String :=
  if using_iterative_solver then
    if preconditioner ≠ "none" ∧ preconditioner ≠ "BBDP" then
      .error ⟨ErrorKind.InvalidPreconditioner, unknownPreconditionerWhat preconditioner⟩
    else
      .ok preconditioner
  else
    .ok "none"

/-- The constructor `Options::Options(py::dict options)`, lines 7-93: the member
initialisers copy the seven entries, then the three stages of the body run in order;
the first `throw` aborts construction. -/
def Options.Options (options : RawConfiguration) :
    Except ConfigurationError Idaklu.Options :=
  match jacobianStage options.jacobian with
  | .error e => .error e
  | .ok using_sparse_matrix =>
    match linearSolverStage options.jacobian options.linear_solver with
    | .error e => .error e
    | .ok using_iterative_solver =>
      match preconditionerStage using_iterative_solver options.preconditioner with
      | .error e => .error e
      | .ok preconditioner =>
        .ok { print_stats := options.print_stats
              jacobian := options.jacobian
              preconditioner := preconditioner
              linsol_max_iterations := options.linsol_max_iterations
              linear_solver := options.linear_solver
              precon_half_bandwidth := options.precon_half_bandwidth
              precon_half_bandwidth_keep := options.precon_half_bandwidth_keep
              using_sparse_matrix := using_sparse_matrix
              using_iterative_solver := using_iterative_solver }

/-- The four Krylov (iterative) linear solvers named by the specification. -/
def IsKrylov (linear_solver : String) : Prop :=
  linear_solver = "SUNLinSol_SPBCGS" ∨ linear_solver = "SUNLinSol_SPFGMR" ∨
  linear_solver = "SUNLinSol_SPGMR" ∨ linear_solver = "SUNLinSol_SPTFQMR"

instance (linear_solver : String) : Decidable (IsKrylov linear_solver) := by
  unfold IsKrylov; infer_instance

/-- The compatible non-iterative rows of the specification's decision table. -/
def CompatibleDirect (jacobian linear_solver : String) : Prop :=
  (jacobian = "dense" ∧
    (linear_solver = "SUNLinSol_Dense" ∨ linear_solver = "SUNLinSol_LapackDense")) ∨
  (jacobian = "sparse" ∧ linear_solver = "SUNLinSol_KLU")

instance (jacobian linear_solver : String) :
    Decidable (CompatibleDirect jacobian linear_solver) := by
  unfold CompatibleDirect; infer_instance

/-- The compatible rows of the specification's decision table: the non-iterative
rows, or a sparse / matrix-free jacobian with a Krylov solver. -/
def Compatible (jacobian linear_solver : String) : Prop :=
  CompatibleDirect jacobian linear_solver ∨
  ((jacobian = "sparse" ∨ jacobian = "matrix-free") ∧ IsKrylov linear_solver)

instance (jacobian linear_solver : String) :
    Decidable (Compatible jacobian linear_solver) := by
  unfold Compatible; infer_instance

/-- The four jacobian strings accepted by the jacobian classification. -/
def LegalJacobian (jacobian : String) : Prop :=
  jacobian = "sparse" ∨ jacobian = "dense" ∨ jacobian = "matrix-free" ∨ jacobian = "none"

instance (jacobian : String) : Decidable (LegalJacobian jacobian) := by
  unfold LegalJacobian; infer_instance

/-- The message `msg` contains `sub` as a contiguous run of characters. -/
def Mentions (msg sub : String) : Prop := sub.data <:+: msg.data

instance (msg sub : String) : Decidable (Mentions msg sub) := by
  unfold Mentions; infer_instance

/-- The string holds no NUL character. -/
def NulFree (s : String) : Prop := NUL ∉ s.data

instance (s : String) : Decidable (NulFree s) := by
  unfold NulFree; infer_instance

/-- The raw configuration rebuilt from the seven canonical members of a constructed
`Options` object. -/
def toRaw (V : Options) : RawConfiguration :=
  { print_stats := V.print_stats
    jacobian := V.jacobian
    preconditioner := V.preconditioner
    linsol_max_iterations := V.linsol_max_iterations
    linear_solver := V.linear_solver
    precon_half_bandwidth := V.precon_half_bandwidth
    precon_half_bandwidth_keep := V.precon_half_bandwidth_keep }

/-- The object built from `raw` with the given final preconditioner and flags. -/
def built (raw : RawConfiguration) (p : String) (s i : Bool) : Options :=
  { print_stats := raw.print_stats
    jacobian := raw.jacobian
    preconditioner := p
    linsol_max_iterations := raw.linsol_max_iterations
    linear_solver := raw.linear_solver
    precon_half_bandwidth := raw.precon_half_bandwidth
    precon_half_bandwidth_keep := raw.precon_half_bandwidth_keep
    using_sparse_matrix := s
    using_iterative_solver := i }

/-! ## The scenarios of the specification, as concrete inputs -/

/-- Scenario A: sparse jacobian, KLU. -/
def scenarioA : RawConfiguration :=
  ⟨false, "sparse", "none", 10, "SUNLinSol_KLU", 1, 1⟩

/-- Scenario B: dense jacobian, dense solver; the caller asks for "BBDP". -/
def scenarioB : RawConfiguration :=
  ⟨false, "dense", "BBDP", 10, "SUNLinSol_Dense", 1, 1⟩

/-- Scenario C: matrix-free jacobian, SPGMR, "BBDP". -/
def scenarioC : RawConfiguration :=
  ⟨true, "matrix-free", "BBDP", 10, "SUNLinSol_SPGMR", 5, 3⟩

/-- Scenario D: sparse jacobian with the dense solver. -/
def scenarioD : RawConfiguration :=
  ⟨false, "sparse", "none", 10, "SUNLinSol_Dense", 1, 1⟩

/-- Scenario E: matrix-free jacobian, SPGMR, unrecognised preconditioner. -/
def scenarioE : RawConfiguration :=
  ⟨false, "matrix-free", "XYZ", 10, "SUNLinSol_SPGMR", 1, 1⟩

/-- Scenario F: jacobian "none" with KLU. -/
def scenarioF : RawConfiguration :=
  ⟨false, "none", "none", 10, "SUNLinSol_KLU", 1, 1⟩

/-- An unknown jacobian with an embedded NUL character. -/
def nulJacobian : RawConfiguration :=
  ⟨false, "a\x00b", "none", 10, "SUNLinSol_KLU", 1, 1⟩

/-- Scenario E with a preconditioner that has an embedded NUL character. -/
def nulPreconditioner : RawConfiguration :=
  ⟨false, "matrix-free", "a\x00b", 10, "SUNLinSol_SPGMR", 1, 1⟩

/-- A dense jacobian with a linear solver that has an embedded NUL character. -/
def nulDenseSolver : RawConfiguration :=
  ⟨false, "dense", "none", 10, "a\x00b", 1, 1⟩

/-- Scenario F with a linear solver that has an embedded NUL character. -/
def nulNoneSolver : RawConfiguration :=
  ⟨false, "none", "none", 10, "a\x00b", 1, 1⟩

/-! ## Characterisation of the three stages -/

theorem jacobianStage_eq_ok (jacobian : String) (b : Bool) :
    jacobianStage jacobian = .ok b ↔
      (LegalJacobian jacobian ∧
        (b = true ↔ jacobian = "sparse" ∨ jacobian = "matrix-free")) := by
  unfold jacobianStage LegalJacobian
  split_ifs with h1 h2 h3
  · subst h1; simp
  · rcases h2 with h2 | h2 <;> subst h2 <;> simp
  · subst h3; simp
  · simp only [not_or] at h2
    simp [h1, h2.1, h2.2, h3]

theorem linearSolverStage_eq_ok (jacobian linear_solver : String) (b : Bool) :
    linearSolverStage jacobian linear_solver = .ok b ↔
      ((CompatibleDirect jacobian linear_solver ∧ b = false) ∨
        ((jacobian = "sparse" ∨ jacobian = "matrix-free") ∧ IsKrylov linear_solver ∧
          b = true)) := by
  unfold linearSolverStage CompatibleDirect IsKrylov
  split_ifs with h1 h2 h3 h4 h5 h6
  · obtain ⟨rfl, rfl⟩ := h1; cases b <;> simp
  · obtain ⟨rfl, rfl⟩ := h2; cases b <;> simp
  · obtain ⟨rfl, rfl⟩ := h3; cases b <;> simp
  · have hk := h4.1
    have hj := h4.2
    have hd : ¬ (jacobian = "dense") := by
      rcases hj with rfl | rfl <;> decide
    have hklu : ¬ (linear_solver = "SUNLinSol_KLU") := by
      rcases hk with rfl | rfl | rfl | rfl <;> decide
    cases b <;> simp [hk, hj, hd, hklu]
  · subst h5
    have hklu : ¬ (linear_solver = "SUNLinSol_KLU") := fun hl => h3 ⟨hl, rfl⟩
    have hk : ¬ (linear_solver = "SUNLinSol_SPBCGS" ∨ linear_solver = "SUNLinSol_SPFGMR" ∨
        linear_solver = "SUNLinSol_SPGMR" ∨ linear_solver = "SUNLinSol_SPTFQMR") :=
      fun hl => h4 ⟨hl, Or.inl rfl⟩
    simp [hklu, hk]
  · subst h6
    have hk : ¬ (linear_solver = "SUNLinSol_SPBCGS" ∨ linear_solver = "SUNLinSol_SPFGMR" ∨
        linear_solver = "SUNLinSol_SPGMR" ∨ linear_solver = "SUNLinSol_SPTFQMR") :=
      fun hl => h4 ⟨hl, Or.inr rfl⟩
    simp [hk]
  · simp only [not_and_or] at h1 h2
    have hD : ¬ (jacobian = "dense" ∧
        (linear_solver = "SUNLinSol_Dense" ∨ linear_solver = "SUNLinSol_LapackDense")) := by
      rintro ⟨hj, hl | hl⟩
      · rcases h1 with h | h
        · exact h hl
        · exact h hj
      · rcases h2 with h | h
        · exact h hl
        · exact h hj
    simp [h5, h6, hD]

theorem preconditionerStage_eq_ok (using_iterative_solver : Bool)
    (preconditioner p : String) :
    preconditionerStage using_iterative_solver preconditioner = .ok p ↔
      ((using_iterative_solver = false ∧ p = "none") ∨
        (using_iterative_solver = true ∧
          (preconditioner = "none" ∨ preconditioner = "BBDP") ∧ p = preconditioner)) := by
  unfold preconditionerStage
  cases using_iterative_solver
  · simp [eq_comm]
  · by_cases h1 : preconditioner = "none"
    · subst h1; simp [eq_comm]
    · by_cases h2 : preconditioner = "BBDP"
      · subst h2; simp [eq_comm]
      · simp [h1, h2]

/-- Success of the constructor, stage by stage. -/
theorem Options_eq_ok (raw : RawConfiguration) (V : Options) :
    Options.Options raw = .ok V ↔
      ∃ s i p, jacobianStage raw.jacobian = .ok s ∧
        linearSolverStage raw.jacobian raw.linear_solver = .ok i ∧
        preconditionerStage i raw.preconditioner = .ok p ∧
        V = { print_stats := raw.print_stats
              jacobian := raw.jacobian
              preconditioner := p
              linsol_max_iterations := raw.linsol_max_iterations
              linear_solver := raw.linear_solver
              precon_half_bandwidth := raw.precon_half_bandwidth
              precon_half_bandwidth_keep := raw.precon_half_bandwidth_keep
              using_sparse_matrix := s
              using_iterative_solver := i } := by
  unfold Options.Options
  cases hs : jacobianStage raw.jacobian with
  | error e => simp
  | ok s =>
    cases hi : linearSolverStage raw.jacobian raw.linear_solver with
    | error e => simp
    | ok i =>
      cases hp : preconditionerStage i raw.preconditioner with
      | error e => simp [hp]
      | ok p => simp [hp, eq_comm]

theorem krylov_not_direct {linear_solver : String} (hk : IsKrylov linear_solver) :
    linear_solver ≠ "SUNLinSol_Dense" ∧ linear_solver ≠ "SUNLinSol_LapackDense" ∧
      linear_solver ≠ "SUNLinSol_KLU" := by
  rcases hk with rfl | rfl | rfl | rfl <;> decide

/-- Closed form of a successful construction: either a compatible direct pair, with
the preconditioner forced to `"none"`, or a Krylov pair with a legal preconditioner,
which is kept. -/
theorem Options_ok_iff (raw : RawConfiguration) (V : Options) :
    Options.Options raw = .ok V ↔
      ((CompatibleDirect raw.jacobian raw.linear_solver ∧
          V = built raw "none" (decide (raw.jacobian = "sparse")) false) ∨
        ((raw.jacobian = "sparse" ∨ raw.jacobian = "matrix-free") ∧
          IsKrylov raw.linear_solver ∧
          (raw.preconditioner = "none" ∨ raw.preconditioner = "BBDP") ∧
          V = built raw raw.preconditioner true true)) := by
  rw [Options_eq_ok]
  constructor
  · rintro ⟨s, i, p, hs, hi, hp, rfl⟩
    rw [jacobianStage_eq_ok] at hs
    rw [linearSolverStage_eq_ok] at hi
    rw [preconditionerStage_eq_ok] at hp
    rcases hi with ⟨hc, rfl⟩ | ⟨hj, hk, rfl⟩
    · left
      refine ⟨hc, ?_⟩
      rcases hp with ⟨-, rfl⟩ | ⟨h, -⟩
      · have hs2 : s = decide (raw.jacobian = "sparse") := by
          rcases hc with ⟨hd, -⟩ | ⟨hsp, -⟩
          · cases s
            · simp [hd]
            · have := hs.2.1 rfl
              rw [hd] at this
              exact absurd this (by decide)
          · cases s
            · have := hs.2.2 (Or.inl hsp)
              exact absurd this (by decide)
            · simp [hsp]
        rw [hs2]; rfl
      · exact absurd h (by decide)
    · right
      refine ⟨hj, hk, ?_⟩
      rcases hp with ⟨h, -⟩ | ⟨-, hpre, rfl⟩
      · exact absurd h (by decide)
      · have hs2 : s = true := hs.2.2 hj
        rw [hs2]
        exact ⟨hpre, rfl⟩
  · rintro (⟨hc, rfl⟩ | ⟨hj, hk, hpre, rfl⟩)
    · refine ⟨decide (raw.jacobian = "sparse"), false, "none", ?_, ?_, ?_, rfl⟩
      · rw [jacobianStage_eq_ok]
        rcases hc with ⟨hd, -⟩ | ⟨hsp, -⟩
        · rw [hd]; decide
        · rw [hsp]; decide
      · rw [linearSolverStage_eq_ok]
        exact Or.inl ⟨hc, rfl⟩
      · rw [preconditionerStage_eq_ok]
        exact Or.inl ⟨rfl, rfl⟩
    · refine ⟨true, true, raw.preconditioner, ?_, ?_, ?_, rfl⟩
      · rw [jacobianStage_eq_ok]
        rcases hj with h | h
        · rw [h]; decide
        · rw [h]; decide
      · rw [linearSolverStage_eq_ok]
        exact Or.inr ⟨hj, hk, rfl⟩
      · rw [preconditionerStage_eq_ok]
        exact Or.inr ⟨rfl, hpre, rfl⟩

/-! ## The five throw sites -/

theorem Options_invalid_jacobian (raw : RawConfiguration)
    (h : ¬ LegalJacobian raw.jacobian) :
    Options.Options raw =
      .error ⟨ErrorKind.InvalidJacobianType, unknownJacobianWhat raw.jacobian⟩ := by
  unfold LegalJacobian at h
  simp only [not_or] at h
  obtain ⟨h1, h2, h3, h4⟩ := h
  simp [Options.Options, jacobianStage, h1, h2, h3, h4]

theorem Options_sparse_incompatible (raw : RawConfiguration)
    (hj : raw.jacobian = "sparse") (hklu : raw.linear_solver ≠ "SUNLinSol_KLU")
    (hk : ¬ IsKrylov raw.linear_solver) :
    Options.Options raw = .error ⟨ErrorKind.IncompatibleLinearSolver, sparseSolverWhat⟩ := by
  unfold IsKrylov at hk
  simp only [not_or] at hk
  obtain ⟨h1, h2, h3, h4⟩ := hk
  simp [Options.Options, jacobianStage, linearSolverStage, hj, hklu, h1, h2, h3, h4]

theorem Options_matrix_free_incompatible (raw : RawConfiguration)
    (hj : raw.jacobian = "matrix-free") (hk : ¬ IsKrylov raw.linear_solver) :
    Options.Options raw =
      .error ⟨ErrorKind.IncompatibleLinearSolver, matrixFreeSolverWhat⟩ := by
  unfold IsKrylov at hk
  simp only [not_or] at hk
  obtain ⟨h1, h2, h3, h4⟩ := hk
  simp [Options.Options, jacobianStage, linearSolverStage, hj, h1, h2, h3, h4]

theorem Options_none_unknown (raw : RawConfiguration) (hj : raw.jacobian = "none") :
    Options.Options raw =
      .error ⟨ErrorKind.UnknownLinearSolver, unknownSolverWhat raw.linear_solver⟩ := by
  simp [Options.Options, jacobianStage, linearSolverStage, hj]

theorem Options_dense_unknown (raw : RawConfiguration) (hj : raw.jacobian = "dense")
    (h1 : raw.linear_solver ≠ "SUNLinSol_Dense")
    (h2 : raw.linear_solver ≠ "SUNLinSol_LapackDense") :
    Options.Options raw =
      .error ⟨ErrorKind.UnknownLinearSolver, unknownSolverWhat raw.linear_solver⟩ := by
  simp [Options.Options, jacobianStage, linearSolverStage, hj, h1, h2]

theorem Options_krylov_bad_preconditioner (raw : RawConfiguration)
    (hj : raw.jacobian = "sparse" ∨ raw.jacobian = "matrix-free")
    (hk : IsKrylov raw.linear_solver)
    (h1 : raw.preconditioner ≠ "none") (h2 : raw.preconditioner ≠ "BBDP") :
    Options.Options raw =
      .error ⟨ErrorKind.InvalidPreconditioner,
        unknownPreconditionerWhat raw.preconditioner⟩ := by
  rcases hj with hj | hj <;> rcases hk with hk | hk | hk | hk <;>
    simp [Options.Options, jacobianStage, linearSolverStage, preconditionerStage,
      hj, hk, h1, h2]

theorem Options_direct_ok (raw : RawConfiguration)
    (hc : CompatibleDirect raw.jacobian raw.linear_solver) :
    Options.Options raw =
      .ok (built raw "none" (decide (raw.jacobian = "sparse")) false) :=
  (Options_ok_iff raw _).2 (Or.inl ⟨hc, rfl⟩)

theorem Options_krylov_ok (raw : RawConfiguration)
    (hj : raw.jacobian = "sparse" ∨ raw.jacobian = "matrix-free")
    (hk : IsKrylov raw.linear_solver)
    (hp : raw.preconditioner = "none" ∨ raw.preconditioner = "BBDP") :
    Options.Options raw = .ok (built raw raw.preconditioner true true) :=
  (Options_ok_iff raw _).2 (Or.inr ⟨hj, hk, hp, rfl⟩)

/-- Every raw configuration falls in exactly one of the seven outcomes of the
constructor. -/
theorem Options_outcome (raw : RawConfiguration) :
    (¬ LegalJacobian raw.jacobian ∧
      Options.Options raw =
        .error ⟨ErrorKind.InvalidJacobianType, unknownJacobianWhat raw.jacobian⟩) ∨
    (raw.jacobian = "sparse" ∧ raw.linear_solver ≠ "SUNLinSol_KLU" ∧
      ¬ IsKrylov raw.linear_solver ∧
      Options.Options raw =
        .error ⟨ErrorKind.IncompatibleLinearSolver, sparseSolverWhat⟩) ∨
    (raw.jacobian = "matrix-free" ∧ ¬ IsKrylov raw.linear_solver ∧
      Options.Options raw =
        .error ⟨ErrorKind.IncompatibleLinearSolver, matrixFreeSolverWhat⟩) ∨
    ((raw.jacobian = "none" ∨
        (raw.jacobian = "dense" ∧ raw.linear_solver ≠ "SUNLinSol_Dense" ∧
          raw.linear_solver ≠ "SUNLinSol_LapackDense")) ∧
      Options.Options raw =
        .error ⟨ErrorKind.UnknownLinearSolver, unknownSolverWhat raw.linear_solver⟩) ∨
    ((raw.jacobian = "sparse" ∨ raw.jacobian = "matrix-free") ∧
      IsKrylov raw.linear_solver ∧
      raw.preconditioner ≠ "none" ∧ raw.preconditioner ≠ "BBDP" ∧
      Options.Options raw =
        .error ⟨ErrorKind.InvalidPreconditioner,
          unknownPreconditionerWhat raw.preconditioner⟩) ∨
    (CompatibleDirect raw.jacobian raw.linear_solver ∧
      Options.Options raw =
        .ok (built raw "none" (decide (raw.jacobian = "sparse")) false)) ∨
    ((raw.jacobian = "sparse" ∨ raw.jacobian = "matrix-free") ∧
      IsKrylov raw.linear_solver ∧
      (raw.preconditioner = "none" ∨ raw.preconditioner = "BBDP") ∧
      Options.Options raw = .ok (built raw raw.preconditioner true true)) := by
  by_cases hl : LegalJacobian raw.jacobian
  swap
  · exact Or.inl ⟨hl, Options_invalid_jacobian raw hl⟩
  by_cases hk : IsKrylov raw.linear_solver
  · rcases hl with hj | hj | hj | hj
    · by_cases h1 : raw.preconditioner = "none"
      · exact Or.inr (Or.inr (Or.inr (Or.inr (Or.inr (Or.inr
          ⟨Or.inl hj, hk, Or.inl h1, Options_krylov_ok raw (Or.inl hj) hk (Or.inl h1)⟩)))))
      · by_cases h2 : raw.preconditioner = "BBDP"
        · exact Or.inr (Or.inr (Or.inr (Or.inr (Or.inr (Or.inr
            ⟨Or.inl hj, hk, Or.inr h2,
              Options_krylov_ok raw (Or.inl hj) hk (Or.inr h2)⟩)))))
        · exact Or.inr (Or.inr (Or.inr (Or.inr (Or.inl
            ⟨Or.inl hj, hk, h1, h2,
              Options_krylov_bad_preconditioner raw (Or.inl hj) hk h1 h2⟩))))
    · have hn := krylov_not_direct hk
      exact Or.inr (Or.inr (Or.inr (Or.inl
        ⟨Or.inr ⟨hj, hn.1, hn.2.1⟩, Options_dense_unknown raw hj hn.1 hn.2.1⟩)))
    · by_cases h1 : raw.preconditioner = "none"
      · exact Or.inr (Or.inr (Or.inr (Or.inr (Or.inr (Or.inr
          ⟨Or.inr hj, hk, Or.inl h1, Options_krylov_ok raw (Or.inr hj) hk (Or.inl h1)⟩)))))
      · by_cases h2 : raw.preconditioner = "BBDP"
        · exact Or.inr (Or.inr (Or.inr (Or.inr (Or.inr (Or.inr
            ⟨Or.inr hj, hk, Or.inr h2,
              Options_krylov_ok raw (Or.inr hj) hk (Or.inr h2)⟩)))))
        · exact Or.inr (Or.inr (Or.inr (Or.inr (Or.inl
            ⟨Or.inr hj, hk, h1, h2,
              Options_krylov_bad_preconditioner raw (Or.inr hj) hk h1 h2⟩))))
    · exact Or.inr (Or.inr (Or.inr (Or.inl ⟨Or.inl hj, Options_none_unknown raw hj⟩)))
  · rcases hl with hj | hj | hj | hj
    · by_cases hklu : raw.linear_solver = "SUNLinSol_KLU"
      · exact Or.inr (Or.inr (Or.inr (Or.inr (Or.inr (Or.inl
          ⟨Or.inr ⟨hj, hklu⟩, Options_direct_ok raw (Or.inr ⟨hj, hklu⟩)⟩)))))
      · exact Or.inr (Or.inl ⟨hj, hklu, hk, Options_sparse_incompatible raw hj hklu hk⟩)
    · by_cases hd : raw.linear_solver = "SUNLinSol_Dense" ∨
          raw.linear_solver = "SUNLinSol_LapackDense"
      · exact Or.inr (Or.inr (Or.inr (Or.inr (Or.inr (Or.inl
          ⟨Or.inl ⟨hj, hd⟩, Options_direct_ok raw (Or.inl ⟨hj, hd⟩)⟩)))))
      · simp only [not_or] at hd
        exact Or.inr (Or.inr (Or.inr (Or.inl
          ⟨Or.inr ⟨hj, hd.1, hd.2⟩, Options_dense_unknown raw hj hd.1 hd.2⟩)))
    · exact Or.inr (Or.inr (Or.inl ⟨hj, hk, Options_matrix_free_incompatible raw hj hk⟩))
    · exact Or.inr (Or.inr (Or.inr (Or.inl ⟨Or.inl hj, Options_none_unknown raw hj⟩)))

/-! ## Containment in messages -/

theorem mentions_middle (a x b : String) : Mentions (a ++ x ++ b) x := by
  unfold Mentions
  rw [String.data_append, String.data_append]
  exact List.infix_append _ _ _

theorem mentions_append_right (a b x : String) (h : Mentions b x) :
    Mentions (a ++ b) x := by
  unfold Mentions at *
  rw [String.data_append]
  exact h.trans (List.suffix_append _ _).isInfix

theorem unknownJacobianWhat_mentions (jacobian : String) :
    Mentions (unknownJacobianWhat jacobian) jacobian ∧
    Mentions (unknownJacobianWhat jacobian) "sparse" ∧
    Mentions (unknownJacobianWhat jacobian) "dense" ∧
    Mentions (unknownJacobianWhat jacobian) "matrix-free" ∧
    Mentions (unknownJacobianWhat jacobian) "none" := by
  unfold unknownJacobianWhat
  refine ⟨mentions_middle _ _ _, ?_, ?_, ?_, ?_⟩ <;>
    exact mentions_append_right _ _ _ (by decide)

theorem unknownPreconditionerWhat_mentions (preconditioner : String) :
    Mentions (unknownPreconditionerWhat preconditioner) preconditioner ∧
    Mentions (unknownPreconditionerWhat preconditioner) "none" ∧
    Mentions (unknownPreconditionerWhat preconditioner) "BBDP" := by
  unfold unknownPreconditionerWhat
  refine ⟨mentions_middle _ _ _, ?_, ?_⟩ <;>
    exact mentions_append_right _ _ _ (by decide)

set_option maxRecDepth 8000 in
theorem sparseSolverWhat_mentions :
    Mentions sparseSolverWhat "use the SUNLinSol_KLU linear solver" := by
  decide

set_option maxRecDepth 8000 in
theorem matrixFreeSolverWhat_mentions :
    Mentions matrixFreeSolverWhat "use one of the iterative linear solvers" ∧
    Mentions matrixFreeSolverWhat "SUNLinSol_SPBCGS" ∧
    Mentions matrixFreeSolverWhat "SUNLinSol_SPFGMR" ∧
    Mentions matrixFreeSolverWhat "SUNLinSol_SPGMR" ∧
    Mentions matrixFreeSolverWhat "SUNLinSol_SPTFQMR" := by
  refine ⟨?_, ?_, ?_, ?_, ?_⟩ <;> decide

/-! ## The C string of a message -/

theorem c_str_of_nulFree (s : String) (h : NulFree s) : c_str s = s := by
  unfold c_str NulFree at *
  have hs : s.data.takeWhile (fun c => decide (c ≠ NUL)) = s.data := by
    rw [List.takeWhile_eq_self_iff]
    intro x hx
    simp only [decide_eq_true_eq]
    rintro rfl
    exact h hx
  rw [hs]

theorem nulFree_append (a b : String) :
    NulFree (a ++ b) ↔ NulFree a ∧ NulFree b := by
  unfold NulFree
  rw [String.data_append, List.mem_append, not_or]

set_option maxRecDepth 16000 in
theorem unknownJacobianWhat_nulFree (jacobian : String) (h : NulFree jacobian) :
    NulFree (unknownJacobianWhat jacobian) := by
  unfold unknownJacobianWhat
  rw [nulFree_append, nulFree_append]
  exact ⟨⟨by decide, h⟩, by decide⟩

set_option maxRecDepth 16000 in
theorem unknownSolverWhat_nulFree (linear_solver : String) (h : NulFree linear_solver) :
    NulFree (unknownSolverWhat linear_solver) := by
  unfold unknownSolverWhat
  rw [nulFree_append, nulFree_append]
  exact ⟨⟨by decide, h⟩, by decide⟩

set_option maxRecDepth 16000 in
theorem unknownPreconditionerWhat_nulFree (preconditioner : String)
    (h : NulFree preconditioner) :
    NulFree (unknownPreconditionerWhat preconditioner) := by
  unfold unknownPreconditionerWhat
  rw [nulFree_append, nulFree_append]
  exact ⟨⟨by decide, h⟩, by decide⟩

set_option maxRecDepth 16000 in
theorem sparseSolverWhat_c_str : c_str sparseSolverWhat = sparseSolverWhat :=
  c_str_of_nulFree _ (by decide)

set_option maxRecDepth 16000 in
theorem matrixFreeSolverWhat_c_str : c_str matrixFreeSolverWhat = matrixFreeSolverWhat :=
  c_str_of_nulFree _ (by decide)

set_option maxRecDepth 16000 in
theorem nulJacobian_what :
    c_str (unknownJacobianWhat "a\x00b") = "Unknown jacobian type \"a" ∧
    ¬ Mentions (c_str (unknownJacobianWhat "a\x00b")) "a\x00b" ∧
    ¬ Mentions (c_str (unknownJacobianWhat "a\x00b")) "sparse" ∧
    ¬ Mentions (c_str (unknownJacobianWhat "a\x00b")) "dense" ∧
    ¬ Mentions (c_str (unknownJacobianWhat "a\x00b")) "matrix-free" ∧
    ¬ Mentions (c_str (unknownJacobianWhat "a\x00b")) "none" := by
  refine ⟨?_, ?_, ?_, ?_, ?_, ?_⟩ <;> decide

set_option maxRecDepth 16000 in
theorem nulPreconditioner_what :
    c_str (unknownPreconditionerWhat "a\x00b") = "Unknown preconditioner \"a" ∧
    ¬ Mentions (c_str (unknownPreconditionerWhat "a\x00b")) "a\x00b" ∧
    ¬ Mentions (c_str (unknownPreconditionerWhat "a\x00b")) "none" ∧
    ¬ Mentions (c_str (unknownPreconditionerWhat "a\x00b")) "BBDP" := by
  refine ⟨?_, ?_, ?_, ?_⟩ <;> decide

set_option maxRecDepth 16000 in
theorem nulSolver_what :
    c_str (unknownSolverWhat "a\x00b") = "Unknown linear solver \"a" ∧
    ¬ Mentions (c_str (unknownSolverWhat "a\x00b")) "a\x00b" ∧
    ¬ Mentions (c_str (unknownSolverWhat "a\x00b")) "SUNLinSol_Dense" ∧
    ¬ Mentions (c_str (unknownSolverWhat "a\x00b")) "SUNLinSol_KLU" := by
  refine ⟨?_, ?_, ?_, ?_⟩ <;> decide

/-! ## Claims -/

/-- C1: the constructor succeeds if and only if the (jacobian, linear_solver) pair is
a compatible row of the decision table and, when the linear solver is one of the four
Krylov solvers, the preconditioner is "none" or "BBDP". The comparisons are exact
string equalities: a jacobian "Sparse" or a linear solver "sunlinsol_klu" never
validates. -/
theorem validate_succeeds_iff (raw : RawConfiguration) :
    ((∃ V, Options.Options raw = .ok V) ↔
      (Compatible raw.jacobian raw.linear_solver ∧
        (IsKrylov raw.linear_solver →
          raw.preconditioner = "none" ∨ raw.preconditioner = "BBDP"))) ∧
    (raw.jacobian = "Sparse" → ¬ ∃ V, Options.Options raw = .ok V) ∧
    (raw.linear_solver = "sunlinsol_klu" → ¬ ∃ V, Options.Options raw = .ok V) := by
  refine ⟨⟨?_, ?_⟩, ?_, ?_⟩
  · rintro ⟨V, h⟩
    rcases (Options_ok_iff raw V).1 h with ⟨hc, -⟩ | ⟨hj, hk, hp, -⟩
    · refine ⟨Or.inl hc, fun hk => ?_⟩
      have hn := krylov_not_direct hk
      rcases hc with ⟨-, hd | hd⟩ | ⟨-, hd⟩
      · exact absurd hd hn.1
      · exact absurd hd hn.2.1
      · exact absurd hd hn.2.2
    · exact ⟨Or.inr ⟨hj, hk⟩, fun _ => hp⟩
  · rintro ⟨hc | ⟨hj, hk⟩, hp⟩
    · exact ⟨_, Options_direct_ok raw hc⟩
    · exact ⟨_, Options_krylov_ok raw hj hk (hp hk)⟩
  · rintro hj ⟨V, h⟩
    have hl : ¬ LegalJacobian raw.jacobian := by rw [hj]; decide
    rw [Options_invalid_jacobian raw hl] at h
    cases h
  · rintro hl ⟨V, h⟩
    rcases (Options_ok_iff raw V).1 h with ⟨hc, -⟩ | ⟨-, hk, -⟩
    · rw [hl] at hc
      rcases hc with ⟨-, hd | hd⟩ | ⟨-, hd⟩
      · exact absurd hd (by decide)
      · exact absurd hd (by decide)
      · exact absurd hd (by decide)
    · rw [hl] at hk
      exact absurd hk (by decide)

/-- Witness for C1: Scenario A validates, and the same configuration with the
jacobian spelt "Sparse" or the solver spelt "sunlinsol_klu" does not. -/
theorem validate_succeeds_iff_witness :
    (∃ V, Options.Options scenarioA = .ok V) ∧
    (¬ ∃ V, Options.Options { scenarioA with jacobian := "Sparse" } = .ok V) ∧
    (¬ ∃ V, Options.Options { scenarioA with linear_solver := "sunlinsol_klu" } = .ok V) :=
  ⟨(validate_succeeds_iff scenarioA).1.2 ⟨by decide, by decide⟩,
    (validate_succeeds_iff { scenarioA with jacobian := "Sparse" }).2.1 rfl,
    (validate_succeeds_iff { scenarioA with linear_solver := "sunlinsol_klu" }).2.2 rfl⟩

/-- C2, as stated, fails: the matrix-free configuration of Scenario C validates with
`using_sparse_matrix = true` although its jacobian is not "sparse". -/
theorem using_sparse_matrix_matrix_free_counterexample :
    Options.Options scenarioC = .ok (built scenarioC "BBDP" true true) ∧
    ¬ ((built scenarioC "BBDP" true true).using_sparse_matrix = true ↔
        (built scenarioC "BBDP" true true).jacobian = "sparse") :=
  ⟨rfl, by decide⟩

/-- C2, amended: on every successful validation `using_sparse_matrix` is true exactly
when the jacobian is "sparse" or "matrix-free", so it is false for "dense". -/
theorem using_sparse_matrix_iff_sparse_or_matrix_free (raw : RawConfiguration)
    (V : Options) (h : Options.Options raw = .ok V) :
    (V.using_sparse_matrix = true ↔
      (V.jacobian = "sparse" ∨ V.jacobian = "matrix-free")) ∧
    (V.jacobian = "dense" → V.using_sparse_matrix = false) := by
  rcases (Options_ok_iff raw V).1 h with ⟨hc, rfl⟩ | ⟨hj, -, -, rfl⟩
  · rcases hc with ⟨hd, -⟩ | ⟨hs, -⟩
    · simp [built, hd]
    · simp [built, hs]
  · rcases hj with hj | hj <;> simp [built, hj]

/-- Witness for C2 amended: Scenario B, a dense jacobian, has the flag cleared. -/
theorem using_sparse_matrix_iff_sparse_or_matrix_free_witness :
    Options.Options scenarioB = .ok (built scenarioB "none" false false) ∧
    (built scenarioB "none" false false).using_sparse_matrix = false :=
  ⟨rfl, (using_sparse_matrix_iff_sparse_or_matrix_free scenarioB
    (built scenarioB "none" false false) rfl).2 rfl⟩

/-- C3: on every successful validation `using_iterative_solver` is true exactly when
the linear solver is one of the four Krylov solvers, and false exactly when it is
"SUNLinSol_Dense", "SUNLinSol_LapackDense" or "SUNLinSol_KLU". -/
theorem using_iterative_solver_iff_krylov (raw : RawConfiguration) (V : Options)
    (h : Options.Options raw = .ok V) :
    (V.using_iterative_solver = true ↔
      (V.linear_solver = "SUNLinSol_SPBCGS" ∨ V.linear_solver = "SUNLinSol_SPFGMR" ∨
        V.linear_solver = "SUNLinSol_SPGMR" ∨ V.linear_solver = "SUNLinSol_SPTFQMR")) ∧
    (V.using_iterative_solver = false ↔
      (V.linear_solver = "SUNLinSol_Dense" ∨ V.linear_solver = "SUNLinSol_LapackDense" ∨
        V.linear_solver = "SUNLinSol_KLU")) := by
  rcases (Options_ok_iff raw V).1 h with ⟨hc, rfl⟩ | ⟨-, hk, -, rfl⟩
  · have hd : raw.linear_solver = "SUNLinSol_Dense" ∨
        raw.linear_solver = "SUNLinSol_LapackDense" ∨
        raw.linear_solver = "SUNLinSol_KLU" := by
      rcases hc with ⟨-, hd | hd⟩ | ⟨-, hd⟩
      · exact Or.inl hd
      · exact Or.inr (Or.inl hd)
      · exact Or.inr (Or.inr hd)
    have hnk : ¬ IsKrylov raw.linear_solver := by
      intro hk
      have hn := krylov_not_direct hk
      rcases hd with hd | hd | hd
      · exact hn.1 hd
      · exact hn.2.1 hd
      · exact hn.2.2 hd
    unfold IsKrylov at hnk
    simp [built, hd, hnk]
  · have hn := krylov_not_direct hk
    unfold IsKrylov at hk
    simp [built, hk, hn.1, hn.2.1, hn.2.2]

/-- Witness for C3: Scenario C uses SPGMR and is iterative. -/
theorem using_iterative_solver_iff_krylov_witness :
    Options.Options scenarioC = .ok (built scenarioC "BBDP" true true) ∧
    (built scenarioC "BBDP" true true).using_iterative_solver = true :=
  ⟨rfl, (using_iterative_solver_iff_krylov scenarioC
    (built scenarioC "BBDP" true true) rfl).1.2 (by decide)⟩

/-- C4: for a compatible non-iterative pair (dense with SUNLinSol_Dense or
SUNLinSol_LapackDense, sparse with SUNLinSol_KLU) validation succeeds whatever the
input preconditioner string `p` is, and the resulting preconditioner is "none";
and every validated configuration with `using_iterative_solver = false` has
preconditioner "none". -/
theorem direct_solver_forces_preconditioner_none (raw : RawConfiguration) :
    (((raw.jacobian = "dense" ∧
          (raw.linear_solver = "SUNLinSol_Dense" ∨
            raw.linear_solver = "SUNLinSol_LapackDense")) ∨
        (raw.jacobian = "sparse" ∧ raw.linear_solver = "SUNLinSol_KLU")) →
      ∀ p : String, ∃ V, Options.Options { raw with preconditioner := p } = .ok V ∧
        V.preconditioner = "none" ∧ V.using_iterative_solver = false) ∧
    (∀ V, Options.Options raw = .ok V → V.using_iterative_solver = false →
      V.preconditioner = "none") := by
  constructor
  · intro hc p
    exact ⟨_, Options_direct_ok { raw with preconditioner := p } hc, rfl, rfl⟩
  · intro V h hi
    rcases (Options_ok_iff raw V).1 h with ⟨-, rfl⟩ | ⟨-, -, -, rfl⟩
    · rfl
    · exact absurd hi (by simp [built])

/-- Witness for C4: Scenario B with the preconditioner "XYZ" validates to "none". -/
theorem direct_solver_forces_preconditioner_none_witness :
    ∃ V, Options.Options { scenarioB with preconditioner := "XYZ" } = .ok V ∧
      V.preconditioner = "none" ∧ V.using_iterative_solver = false :=
  (direct_solver_forces_preconditioner_none scenarioB).1
    (Or.inl ⟨rfl, Or.inl rfl⟩) "XYZ"

/-- C5: every raw configuration with jacobian "none" fails validation, whatever the
linear solver and the preconditioner are, and the failure is the final
"Unknown linear solver" error, never the jacobian error. -/
theorem jacobian_none_fails_unknown_linear_solver (raw : RawConfiguration)
    (h : raw.jacobian = "none") :
    Options.Options raw =
      .error ⟨ErrorKind.UnknownLinearSolver, unknownSolverWhat raw.linear_solver⟩ ∧
    (∀ V, Options.Options raw ≠ .ok V) ∧
    (∀ e, Options.Options raw = .error e → e.kind ≠ ErrorKind.InvalidJacobianType) := by
  have hn := Options_none_unknown raw h
  refine ⟨hn, ?_, ?_⟩
  · intro V hV
    rw [hn] at hV
    cases hV
  · intro e he
    rw [hn] at he
    cases he
    simp

/-- Witness for C5: Scenario F, jacobian "none" with SUNLinSol_KLU. -/
theorem jacobian_none_fails_unknown_linear_solver_witness :
    Options.Options scenarioF =
      .error ⟨ErrorKind.UnknownLinearSolver, unknownSolverWhat "SUNLinSol_KLU"⟩ :=
  (jacobian_none_fails_unknown_linear_solver scenarioF rfl).1

/-- C6, as stated, fails: the jacobian "a", NUL, "b" is rejected with the jacobian
error, but the message that `what()` returns ends at the NUL: it is
`Unknown jacobian type "a` and contains neither the whole offending string nor any
of the four legal values. -/
theorem invalid_jacobian_message_nul_counterexample :
    Options.Options nulJacobian =
      .error ⟨ErrorKind.InvalidJacobianType, unknownJacobianWhat "a\x00b"⟩ ∧
    ConfigurationError.what
        ⟨ErrorKind.InvalidJacobianType, unknownJacobianWhat "a\x00b"⟩ =
      "Unknown jacobian type \"a" ∧
    ¬ Mentions
        (ConfigurationError.what
          ⟨ErrorKind.InvalidJacobianType, unknownJacobianWhat "a\x00b"⟩)
        nulJacobian.jacobian ∧
    ¬ Mentions
        (ConfigurationError.what
          ⟨ErrorKind.InvalidJacobianType, unknownJacobianWhat "a\x00b"⟩)
        "sparse" :=
  ⟨rfl, nulJacobian_what.1, nulJacobian_what.2.1, nulJacobian_what.2.2.1⟩

/-- C6, amended: validation fails with the jacobian error if and only if the
jacobian is not exactly one of "sparse", "dense", "matrix-free", "none", whatever
the linear solver and the preconditioner are; when the jacobian string holds no NUL
character, the message of that error contains the offending jacobian string and
each of the four legal values. -/
theorem invalid_jacobian_type_iff (raw : RawConfiguration) :
    ((∃ e, Options.Options raw = .error e ∧ e.kind = ErrorKind.InvalidJacobianType) ↔
      ¬ (raw.jacobian = "sparse" ∨ raw.jacobian = "dense" ∨
          raw.jacobian = "matrix-free" ∨ raw.jacobian = "none")) ∧
    (∀ e, Options.Options raw = .error e → e.kind = ErrorKind.InvalidJacobianType →
      NulFree raw.jacobian →
      Mentions e.what raw.jacobian ∧ Mentions e.what "sparse" ∧
        Mentions e.what "dense" ∧ Mentions e.what "matrix-free" ∧
        Mentions e.what "none") := by
  have key : ∀ e, Options.Options raw = .error e →
      e.kind = ErrorKind.InvalidJacobianType →
      ¬ LegalJacobian raw.jacobian ∧
        e = ⟨ErrorKind.InvalidJacobianType, unknownJacobianWhat raw.jacobian⟩ := by
    intro e he hk
    rcases Options_outcome raw with ⟨hl, h⟩ | ⟨-, -, -, h⟩ | ⟨-, -, h⟩ | ⟨-, h⟩ |
      ⟨-, -, -, -, h⟩ | ⟨-, h⟩ | ⟨-, -, -, h⟩ <;> rw [h] at he <;> cases he
    · exact ⟨hl, rfl⟩
    all_goals exact absurd hk (by simp)
  refine ⟨⟨?_, ?_⟩, ?_⟩
  · rintro ⟨e, he, hk⟩
    exact (key e he hk).1
  · intro hl
    exact ⟨_, Options_invalid_jacobian raw hl, rfl⟩
  · intro e he hk hn
    rw [(key e he hk).2]
    unfold ConfigurationError.what
    rw [c_str_of_nulFree _ (unknownJacobianWhat_nulFree _ hn)]
    exact unknownJacobianWhat_mentions raw.jacobian

/-- Witness for C6 amended: the jacobian "Sparse" is rejected with the jacobian
error even when the linear solver and the preconditioner are unrecognised too, and
the message names "Sparse". -/
theorem invalid_jacobian_type_iff_witness :
    (∃ e, Options.Options ⟨false, "Sparse", "XYZ", 10, "nonsense", 1, 1⟩ = .error e ∧
      e.kind = ErrorKind.InvalidJacobianType) ∧
    Mentions
      (ConfigurationError.what ⟨ErrorKind.InvalidJacobianType, unknownJacobianWhat "Sparse"⟩)
      "Sparse" :=
  ⟨(invalid_jacobian_type_iff ⟨false, "Sparse", "XYZ", 10, "nonsense", 1, 1⟩).1.2
      (by decide),
    ((invalid_jacobian_type_iff ⟨false, "Sparse", "XYZ", 10, "nonsense", 1, 1⟩).2
      ⟨ErrorKind.InvalidJacobianType, unknownJacobianWhat "Sparse"⟩ rfl rfl
      (by decide)).1⟩

/-- C7, as stated, fails: a matrix-free jacobian with SUNLinSol_SPGMR and the
preconditioner "a", NUL, "b" fails with the preconditioner error, but the message
that `what()` returns ends at the NUL: it is `Unknown preconditioner "a` and
contains neither the whole offending string nor "none" nor "BBDP". -/
theorem invalid_preconditioner_message_nul_counterexample :
    Options.Options nulPreconditioner =
      .error ⟨ErrorKind.InvalidPreconditioner, unknownPreconditionerWhat "a\x00b"⟩ ∧
    ConfigurationError.what
        ⟨ErrorKind.InvalidPreconditioner, unknownPreconditionerWhat "a\x00b"⟩ =
      "Unknown preconditioner \"a" ∧
    ¬ Mentions
        (ConfigurationError.what
          ⟨ErrorKind.InvalidPreconditioner, unknownPreconditionerWhat "a\x00b"⟩)
        nulPreconditioner.preconditioner ∧
    ¬ Mentions
        (ConfigurationError.what
          ⟨ErrorKind.InvalidPreconditioner, unknownPreconditionerWhat "a\x00b"⟩)
        "none" ∧
    ¬ Mentions
        (ConfigurationError.what
          ⟨ErrorKind.InvalidPreconditioner, unknownPreconditionerWhat "a\x00b"⟩)
        "BBDP" :=
  ⟨rfl, nulPreconditioner_what.1, nulPreconditioner_what.2.1,
    nulPreconditioner_what.2.2.1, nulPreconditioner_what.2.2.2⟩

/-- C7, amended: with a sparse or matrix-free jacobian and a Krylov linear solver, a
preconditioner other than "none" and "BBDP" fails with the preconditioner error,
whose message, when the preconditioner string holds no NUL character, contains the
offending string and both legal values; otherwise validation succeeds with
`using_iterative_solver = true` and the preconditioner unchanged. -/
theorem krylov_preconditioner_checked (raw : RawConfiguration)
    (hj : raw.jacobian = "sparse" ∨ raw.jacobian = "matrix-free")
    (hk : raw.linear_solver = "SUNLinSol_SPBCGS" ∨
      raw.linear_solver = "SUNLinSol_SPFGMR" ∨
      raw.linear_solver = "SUNLinSol_SPGMR" ∨
      raw.linear_solver = "SUNLinSol_SPTFQMR") :
    ((raw.preconditioner ≠ "none" ∧ raw.preconditioner ≠ "BBDP") →
      ∃ e, Options.Options raw = .error e ∧
        e.kind = ErrorKind.InvalidPreconditioner ∧
        (NulFree raw.preconditioner →
          Mentions e.what raw.preconditioner ∧
            Mentions e.what "none" ∧ Mentions e.what "BBDP")) ∧
    (¬ (raw.preconditioner ≠ "none" ∧ raw.preconditioner ≠ "BBDP") →
      ∃ V, Options.Options raw = .ok V ∧ V.using_iterative_solver = true ∧
        V.preconditioner = raw.preconditioner) := by
  constructor
  · rintro ⟨h1, h2⟩
    refine ⟨_, Options_krylov_bad_preconditioner raw hj hk h1 h2, rfl, fun hn => ?_⟩
    unfold ConfigurationError.what
    rw [c_str_of_nulFree _ (unknownPreconditionerWhat_nulFree _ hn)]
    exact unknownPreconditionerWhat_mentions raw.preconditioner
  · intro hp
    have hp2 : raw.preconditioner = "none" ∨ raw.preconditioner = "BBDP" := by
      by_cases h1 : raw.preconditioner = "none"
      · exact Or.inl h1
      · by_cases h2 : raw.preconditioner = "BBDP"
        · exact Or.inr h2
        · exact absurd ⟨h1, h2⟩ hp
    exact ⟨_, Options_krylov_ok raw hj hk hp2, rfl, rfl⟩

/-- Witness for C7 amended: Scenario E ("XYZ") is rejected and Scenario C ("BBDP")
is accepted with the preconditioner kept. -/
theorem krylov_preconditioner_checked_witness :
    (∃ e, Options.Options scenarioE = .error e ∧
      e.kind = ErrorKind.InvalidPreconditioner ∧
      Mentions e.what "XYZ" ∧ Mentions e.what "none" ∧ Mentions e.what "BBDP") ∧
    (∃ V, Options.Options scenarioC = .ok V ∧ V.using_iterative_solver = true ∧
      V.preconditioner = "BBDP") :=
  ⟨((krylov_preconditioner_checked scenarioE (Or.inr rfl)
        (Or.inr (Or.inr (Or.inl rfl)))).1 ⟨by decide, by decide⟩).imp
      fun _ he => ⟨he.1, he.2.1, he.2.2 (by decide)⟩,
    (krylov_preconditioner_checked scenarioC (Or.inr rfl) (Or.inr (Or.inr (Or.inl rfl)))).2
      (by decide)⟩

/-- C8: a sparse jacobian whose linear solver is neither SUNLinSol_KLU nor a Krylov
solver fails with the incompatible-solver error advising SUNLinSol_KLU; a
matrix-free jacobian whose linear solver is not a Krylov solver fails with the
incompatible-solver error advising the four iterative solvers; both whatever the
preconditioner is. Both texts hold no NUL character, so `what()` returns them
whole. -/
theorem incompatible_linear_solver_rows (raw : RawConfiguration) :
    (raw.jacobian = "sparse" → raw.linear_solver ≠ "SUNLinSol_KLU" →
      ¬ IsKrylov raw.linear_solver →
      Options.Options raw =
        .error ⟨ErrorKind.IncompatibleLinearSolver, sparseSolverWhat⟩) ∧
    (raw.jacobian = "matrix-free" → ¬ IsKrylov raw.linear_solver →
      Options.Options raw =
        .error ⟨ErrorKind.IncompatibleLinearSolver, matrixFreeSolverWhat⟩) ∧
    Mentions sparseSolverWhat "use the SUNLinSol_KLU linear solver" ∧
    Mentions matrixFreeSolverWhat "use one of the iterative linear solvers" ∧
    Mentions matrixFreeSolverWhat "SUNLinSol_SPBCGS" ∧
    Mentions matrixFreeSolverWhat "SUNLinSol_SPFGMR" ∧
    Mentions matrixFreeSolverWhat "SUNLinSol_SPGMR" ∧
    Mentions matrixFreeSolverWhat "SUNLinSol_SPTFQMR" ∧
    ConfigurationError.what ⟨ErrorKind.IncompatibleLinearSolver, sparseSolverWhat⟩ =
      sparseSolverWhat ∧
    ConfigurationError.what ⟨ErrorKind.IncompatibleLinearSolver, matrixFreeSolverWhat⟩ =
      matrixFreeSolverWhat := by
  exact ⟨Options_sparse_incompatible raw, Options_matrix_free_incompatible raw,
    sparseSolverWhat_mentions, matrixFreeSolverWhat_mentions.1,
    matrixFreeSolverWhat_mentions.2.1, matrixFreeSolverWhat_mentions.2.2.1,
    matrixFreeSolverWhat_mentions.2.2.2.1, matrixFreeSolverWhat_mentions.2.2.2.2,
    sparseSolverWhat_c_str, matrixFreeSolverWhat_c_str⟩

/-- Witness for C8: Scenario D (sparse with SUNLinSol_Dense) and a matrix-free
jacobian with SUNLinSol_KLU. -/
theorem incompatible_linear_solver_rows_witness :
    Options.Options scenarioD =
      .error ⟨ErrorKind.IncompatibleLinearSolver, sparseSolverWhat⟩ ∧
    Options.Options ⟨false, "matrix-free", "BBDP", 10, "SUNLinSol_KLU", 1, 1⟩ =
      .error ⟨ErrorKind.IncompatibleLinearSolver, matrixFreeSolverWhat⟩ :=
  ⟨(incompatible_linear_solver_rows scenarioD).1 rfl (by decide) (by decide),
    (incompatible_linear_solver_rows
      ⟨false, "matrix-free", "BBDP", 10, "SUNLinSol_KLU", 1, 1⟩).2.1 rfl (by decide)⟩

/-- C9: idempotence. Validating the raw configuration rebuilt from the seven
canonical members of a validated configuration succeeds and yields that same
configuration, flags included. -/
theorem revalidation_idempotent (raw : RawConfiguration) (V : Options)
    (h : Options.Options raw = .ok V) :
    Options.Options (toRaw V) = .ok V := by
  rcases (Options_ok_iff raw V).1 h with ⟨hc, rfl⟩ | ⟨hj, hk, hp, rfl⟩
  · exact Options_direct_ok (toRaw (built raw "none" _ false)) hc
  · exact Options_krylov_ok (toRaw (built raw raw.preconditioner true true)) hj hk hp

/-- Witness for C9: Scenario B, whose preconditioner "BBDP" was replaced by "none". -/
theorem revalidation_idempotent_witness :
    Options.Options scenarioB = .ok (built scenarioB "none" false false) ∧
    Options.Options (toRaw (built scenarioB "none" false false)) =
      .ok (built scenarioB "none" false false) :=
  ⟨rfl, revalidation_idempotent scenarioB (built scenarioB "none" false false) rfl⟩

/-- C10: on every successful validation print_stats, linsol_max_iterations,
precon_half_bandwidth, precon_half_bandwidth_keep, jacobian and linear_solver equal
the input values; only the preconditioner can differ, and then it is "none". -/
theorem copied_fields_unchanged (raw : RawConfiguration) (V : Options)
    (h : Options.Options raw = .ok V) :
    V.print_stats = raw.print_stats ∧
    V.linsol_max_iterations = raw.linsol_max_iterations ∧
    V.precon_half_bandwidth = raw.precon_half_bandwidth ∧
    V.precon_half_bandwidth_keep = raw.precon_half_bandwidth_keep ∧
    V.jacobian = raw.jacobian ∧
    V.linear_solver = raw.linear_solver ∧
    (V.preconditioner = raw.preconditioner ∨ V.preconditioner = "none") := by
  rcases (Options_ok_iff raw V).1 h with ⟨-, rfl⟩ | ⟨-, -, -, rfl⟩
  · exact ⟨rfl, rfl, rfl, rfl, rfl, rfl, Or.inr rfl⟩
  · exact ⟨rfl, rfl, rfl, rfl, rfl, rfl, Or.inl rfl⟩

/-- Witness for C10: Scenario C keeps every copied member. -/
theorem copied_fields_unchanged_witness :
    (built scenarioC "BBDP" true true).print_stats = true ∧
    (built scenarioC "BBDP" true true).linsol_max_iterations = 10 ∧
    (built scenarioC "BBDP" true true).precon_half_bandwidth = 5 ∧
    (built scenarioC "BBDP" true true).precon_half_bandwidth_keep = 3 ∧
    (built scenarioC "BBDP" true true).jacobian = "matrix-free" ∧
    (built scenarioC "BBDP" true true).linear_solver = "SUNLinSol_SPGMR" ∧
    ((built scenarioC "BBDP" true true).preconditioner = "BBDP" ∨
      (built scenarioC "BBDP" true true).preconditioner = "none") :=
  copied_fields_unchanged scenarioC (built scenarioC "BBDP" true true) rfl

/-! ## Further facts about the messages and the failing outcomes -/

set_option maxRecDepth 16000 in
theorem unknownSolverWhat_mentions (linear_solver : String) :
    Mentions (unknownSolverWhat linear_solver) linear_solver ∧
    Mentions (unknownSolverWhat linear_solver) "SUNLinSol_KLU" ∧
    Mentions (unknownSolverWhat linear_solver) "SUNLinSol_Dense" ∧
    Mentions (unknownSolverWhat linear_solver) "SUNLinSol_LapackDense" ∧
    Mentions (unknownSolverWhat linear_solver) "SUNLinSol_SPBCGS" ∧
    Mentions (unknownSolverWhat linear_solver) "SUNLinSol_SPFGMR" ∧
    Mentions (unknownSolverWhat linear_solver) "SUNLinSol_SPGMR" ∧
    Mentions (unknownSolverWhat linear_solver) "SUNLinSol_SPTFQMR" := by
  unfold unknownSolverWhat
  refine ⟨mentions_middle _ _ _, ?_, ?_, ?_, ?_, ?_, ?_, ?_⟩ <;>
    exact mentions_append_right _ _ _ (by decide)

set_option maxRecDepth 16000 in
theorem sparseSolverWhat_omits :
    ¬ Mentions sparseSolverWhat "SUNLinSol_Dense" ∧
    ¬ Mentions sparseSolverWhat "SUNLinSol_SPGMR" := by
  constructor <;> decide

set_option maxRecDepth 16000 in
theorem matrixFreeSolverWhat_omits :
    ¬ Mentions matrixFreeSolverWhat "SUNLinSol_KLU" := by
  decide

/-- A failed construction comes from exactly one of the five throw sites. -/
theorem Options_error_cases (raw : RawConfiguration) (e : ConfigurationError)
    (h : Options.Options raw = .error e) :
    (¬ LegalJacobian raw.jacobian ∧
      e = ⟨ErrorKind.InvalidJacobianType, unknownJacobianWhat raw.jacobian⟩) ∨
    (raw.jacobian = "sparse" ∧ raw.linear_solver ≠ "SUNLinSol_KLU" ∧
      ¬ IsKrylov raw.linear_solver ∧
      e = ⟨ErrorKind.IncompatibleLinearSolver, sparseSolverWhat⟩) ∨
    (raw.jacobian = "matrix-free" ∧ ¬ IsKrylov raw.linear_solver ∧
      e = ⟨ErrorKind.IncompatibleLinearSolver, matrixFreeSolverWhat⟩) ∨
    ((raw.jacobian = "none" ∨
        (raw.jacobian = "dense" ∧ raw.linear_solver ≠ "SUNLinSol_Dense" ∧
          raw.linear_solver ≠ "SUNLinSol_LapackDense")) ∧
      e = ⟨ErrorKind.UnknownLinearSolver, unknownSolverWhat raw.linear_solver⟩) ∨
    ((raw.jacobian = "sparse" ∨ raw.jacobian = "matrix-free") ∧
      IsKrylov raw.linear_solver ∧
      raw.preconditioner ≠ "none" ∧ raw.preconditioner ≠ "BBDP" ∧
      e = ⟨ErrorKind.InvalidPreconditioner,
        unknownPreconditionerWhat raw.preconditioner⟩) := by
  rcases Options_outcome raw with ⟨hl, h1⟩ | ⟨a, b, c, h1⟩ | ⟨a, b, h1⟩ | ⟨a, h1⟩ |
    ⟨a, b, c, d, h1⟩ | ⟨-, h1⟩ | ⟨-, -, -, h1⟩ <;> rw [h1] at h <;> cases h
  · exact Or.inl ⟨hl, rfl⟩
  · exact Or.inr (Or.inl ⟨a, b, c, rfl⟩)
  · exact Or.inr (Or.inr (Or.inl ⟨a, b, rfl⟩))
  · exact Or.inr (Or.inr (Or.inr (Or.inl ⟨a, rfl⟩)))
  · exact Or.inr (Or.inr (Or.inr (Or.inr ⟨a, b, c, d, rfl⟩)))

set_option maxRecDepth 16000 in
theorem sparseSolverWhat_mentions_klu : Mentions sparseSolverWhat "SUNLinSol_KLU" := by
  decide

/-! ## Claims on messages, derived flags and error priority -/

/-- C11, as stated, fails. Scenario D (sparse jacobian with SUNLinSol_Dense) fails
with the incompatible-solver error, whose message contains neither the offending
"SUNLinSol_Dense" nor "SUNLinSol_SPGMR", a solver that does validate with a sparse
jacobian; a matrix-free jacobian with SUNLinSol_KLU fails with a message that does
not contain "SUNLinSol_KLU"; and with the jacobian "none" and the linear solver
"a", NUL, "b" the message that `what()` returns is `Unknown linear solver "a`,
which contains neither the whole offending string nor "SUNLinSol_Dense". -/
theorem incompatible_message_omits_values_counterexample :
    Options.Options scenarioD =
      .error ⟨ErrorKind.IncompatibleLinearSolver, sparseSolverWhat⟩ ∧
    ConfigurationError.what ⟨ErrorKind.IncompatibleLinearSolver, sparseSolverWhat⟩ =
      sparseSolverWhat ∧
    ¬ Mentions sparseSolverWhat scenarioD.linear_solver ∧
    Options.Options { scenarioD with linear_solver := "SUNLinSol_SPGMR" } =
      .ok (built { scenarioD with linear_solver := "SUNLinSol_SPGMR" } "none" true true) ∧
    ¬ Mentions sparseSolverWhat "SUNLinSol_SPGMR" ∧
    Options.Options ⟨false, "matrix-free", "none", 10, "SUNLinSol_KLU", 1, 1⟩ =
      .error ⟨ErrorKind.IncompatibleLinearSolver, matrixFreeSolverWhat⟩ ∧
    ConfigurationError.what ⟨ErrorKind.IncompatibleLinearSolver, matrixFreeSolverWhat⟩ =
      matrixFreeSolverWhat ∧
    ¬ Mentions matrixFreeSolverWhat "SUNLinSol_KLU" ∧
    Options.Options nulNoneSolver =
      .error ⟨ErrorKind.UnknownLinearSolver, unknownSolverWhat "a\x00b"⟩ ∧
    ConfigurationError.what ⟨ErrorKind.UnknownLinearSolver, unknownSolverWhat "a\x00b"⟩ =
      "Unknown linear solver \"a" ∧
    ¬ Mentions
        (ConfigurationError.what
          ⟨ErrorKind.UnknownLinearSolver, unknownSolverWhat "a\x00b"⟩)
        nulNoneSolver.linear_solver ∧
    ¬ Mentions
        (ConfigurationError.what
          ⟨ErrorKind.UnknownLinearSolver, unknownSolverWhat "a\x00b"⟩)
        "SUNLinSol_Dense" :=
  ⟨rfl, sparseSolverWhat_c_str, sparseSolverWhat_omits.1, rfl, sparseSolverWhat_omits.2,
    rfl, matrixFreeSolverWhat_c_str, matrixFreeSolverWhat_omits,
    rfl, nulSolver_what.1, nulSolver_what.2.1, nulSolver_what.2.2.1⟩

/-- C11, amended: on every failed validation, a jacobian error message contains the
jacobian string and the four legal jacobian values when the jacobian holds no NUL
character; an unknown-solver message contains the linear solver string and all
seven legal solver names when the linear solver holds no NUL character; a
preconditioner error message contains the preconditioner string and both legal
values when the preconditioner holds no NUL character; an incompatible-solver
message is a fixed text determined by the jacobian alone, the same for every linear
solver: for a sparse jacobian the text that names SUNLinSol_KLU, for a matrix-free
jacobian the text that names the four Krylov solvers. -/
theorem error_message_names_values (raw : RawConfiguration) (e : ConfigurationError)
    (h : Options.Options raw = .error e) :
    (e.kind = ErrorKind.InvalidJacobianType → NulFree raw.jacobian →
      Mentions e.what raw.jacobian ∧ Mentions e.what "sparse" ∧
        Mentions e.what "dense" ∧ Mentions e.what "matrix-free" ∧
        Mentions e.what "none") ∧
    (e.kind = ErrorKind.UnknownLinearSolver → NulFree raw.linear_solver →
      Mentions e.what raw.linear_solver ∧ Mentions e.what "SUNLinSol_KLU" ∧
        Mentions e.what "SUNLinSol_Dense" ∧ Mentions e.what "SUNLinSol_LapackDense" ∧
        Mentions e.what "SUNLinSol_SPBCGS" ∧ Mentions e.what "SUNLinSol_SPFGMR" ∧
        Mentions e.what "SUNLinSol_SPGMR" ∧ Mentions e.what "SUNLinSol_SPTFQMR") ∧
    (e.kind = ErrorKind.InvalidPreconditioner → NulFree raw.preconditioner →
      Mentions e.what raw.preconditioner ∧ Mentions e.what "none" ∧
        Mentions e.what "BBDP") ∧
    (e.kind = ErrorKind.IncompatibleLinearSolver →
      (raw.jacobian = "sparse" ∧ e.what = sparseSolverWhat ∧
        Mentions e.what "SUNLinSol_KLU") ∨
      (raw.jacobian = "matrix-free" ∧ e.what = matrixFreeSolverWhat ∧
        Mentions e.what "SUNLinSol_SPBCGS" ∧ Mentions e.what "SUNLinSol_SPFGMR" ∧
        Mentions e.what "SUNLinSol_SPGMR" ∧ Mentions e.what "SUNLinSol_SPTFQMR")) := by
  rcases Options_error_cases raw e h with ⟨-, rfl⟩ | ⟨hj, -, -, rfl⟩ | ⟨hj, -, rfl⟩ |
    ⟨-, rfl⟩ | ⟨-, -, -, -, rfl⟩
  · refine ⟨fun _ hn => ?_, ?_, ?_, ?_⟩
    · unfold ConfigurationError.what
      rw [c_str_of_nulFree _ (unknownJacobianWhat_nulFree _ hn)]
      exact unknownJacobianWhat_mentions raw.jacobian
    all_goals intro hk; exact absurd hk (by simp)
  · refine ⟨?_, ?_, ?_, fun _ => Or.inl ⟨hj, sparseSolverWhat_c_str, ?_⟩⟩
    · intro hk; exact absurd hk (by simp)
    · intro hk; exact absurd hk (by simp)
    · intro hk; exact absurd hk (by simp)
    · unfold ConfigurationError.what
      rw [sparseSolverWhat_c_str]
      exact sparseSolverWhat_mentions_klu
  · refine ⟨?_, ?_, ?_, fun _ => Or.inr ⟨hj, matrixFreeSolverWhat_c_str, ?_⟩⟩
    · intro hk; exact absurd hk (by simp)
    · intro hk; exact absurd hk (by simp)
    · intro hk; exact absurd hk (by simp)
    · unfold ConfigurationError.what
      rw [matrixFreeSolverWhat_c_str]
      exact matrixFreeSolverWhat_mentions.2
  · refine ⟨?_, fun _ hn => ?_, ?_, ?_⟩
    · intro hk; exact absurd hk (by simp)
    · unfold ConfigurationError.what
      rw [c_str_of_nulFree _ (unknownSolverWhat_nulFree _ hn)]
      exact unknownSolverWhat_mentions raw.linear_solver
    · intro hk; exact absurd hk (by simp)
    · intro hk; exact absurd hk (by simp)
  · refine ⟨?_, ?_, fun _ hn => ?_, ?_⟩
    · intro hk; exact absurd hk (by simp)
    · intro hk; exact absurd hk (by simp)
    · unfold ConfigurationError.what
      rw [c_str_of_nulFree _ (unknownPreconditionerWhat_nulFree _ hn)]
      exact unknownPreconditionerWhat_mentions raw.preconditioner
    · intro hk; exact absurd hk (by simp)

/-- Witness for C11 amended: Scenario F fails with the unknown-solver error, whose
message contains "SUNLinSol_KLU", the solver that was given. -/
theorem error_message_names_values_witness :
    Options.Options scenarioF =
      .error ⟨ErrorKind.UnknownLinearSolver, unknownSolverWhat "SUNLinSol_KLU"⟩ ∧
    Mentions
      (ConfigurationError.what
        ⟨ErrorKind.UnknownLinearSolver, unknownSolverWhat "SUNLinSol_KLU"⟩)
      scenarioF.linear_solver ∧
    Mentions
      (ConfigurationError.what
        ⟨ErrorKind.UnknownLinearSolver, unknownSolverWhat "SUNLinSol_KLU"⟩)
      "SUNLinSol_SPTFQMR" :=
  ⟨rfl,
    ((error_message_names_values scenarioF
      ⟨ErrorKind.UnknownLinearSolver, unknownSolverWhat "SUNLinSol_KLU"⟩ rfl).2.1 rfl
      (by decide)).1,
    ((error_message_names_values scenarioF
      ⟨ErrorKind.UnknownLinearSolver, unknownSolverWhat "SUNLinSol_KLU"⟩ rfl).2.1 rfl
      (by decide)).2.2.2.2.2.2.2⟩

/-- C12, as stated, fails: a dense jacobian with the linear solver "a", NUL, "b"
fails with the unknown-solver error, but the message that `what()` returns ends at
the NUL: it is `Unknown linear solver "a` and contains neither the whole given
string nor the solver names. -/
theorem unknown_solver_message_nul_counterexample :
    Options.Options nulDenseSolver =
      .error ⟨ErrorKind.UnknownLinearSolver, unknownSolverWhat "a\x00b"⟩ ∧
    ConfigurationError.what ⟨ErrorKind.UnknownLinearSolver, unknownSolverWhat "a\x00b"⟩ =
      "Unknown linear solver \"a" ∧
    ¬ Mentions
        (ConfigurationError.what
          ⟨ErrorKind.UnknownLinearSolver, unknownSolverWhat "a\x00b"⟩)
        nulDenseSolver.linear_solver ∧
    ¬ Mentions
        (ConfigurationError.what
          ⟨ErrorKind.UnknownLinearSolver, unknownSolverWhat "a\x00b"⟩)
        "SUNLinSol_Dense" ∧
    ¬ Mentions
        (ConfigurationError.what
          ⟨ErrorKind.UnknownLinearSolver, unknownSolverWhat "a\x00b"⟩)
        "SUNLinSol_KLU" :=
  ⟨rfl, nulSolver_what.1, nulSolver_what.2.1, nulSolver_what.2.2.1,
    nulSolver_what.2.2.2⟩

/-- C12, amended: a dense jacobian with a linear solver other than SUNLinSol_Dense
and SUNLinSol_LapackDense fails with the unknown-solver error; this includes
solvers that are legal for another jacobian, such as SUNLinSol_KLU. When the linear
solver string holds no NUL character, the message contains the given linear solver
string and all seven legal solver names. -/
theorem dense_other_solver_unknown (raw : RawConfiguration)
    (hj : raw.jacobian = "dense")
    (h1 : raw.linear_solver ≠ "SUNLinSol_Dense")
    (h2 : raw.linear_solver ≠ "SUNLinSol_LapackDense") :
    ∃ e, Options.Options raw = .error e ∧
      e.kind = ErrorKind.UnknownLinearSolver ∧
      (NulFree raw.linear_solver →
        Mentions e.what raw.linear_solver ∧ Mentions e.what "SUNLinSol_KLU" ∧
        Mentions e.what "SUNLinSol_Dense" ∧ Mentions e.what "SUNLinSol_LapackDense" ∧
        Mentions e.what "SUNLinSol_SPBCGS" ∧ Mentions e.what "SUNLinSol_SPFGMR" ∧
        Mentions e.what "SUNLinSol_SPGMR" ∧ Mentions e.what "SUNLinSol_SPTFQMR") := by
  refine ⟨_, Options_dense_unknown raw hj h1 h2, rfl, fun hn => ?_⟩
  unfold ConfigurationError.what
  rw [c_str_of_nulFree _ (unknownSolverWhat_nulFree _ hn)]
  exact unknownSolverWhat_mentions raw.linear_solver

/-- Witness for C12 amended: a dense jacobian with SUNLinSol_KLU, and with
SUNLinSol_SPGMR. -/
theorem dense_other_solver_unknown_witness :
    (∃ e, Options.Options { scenarioB with linear_solver := "SUNLinSol_KLU" } = .error e ∧
      e.kind = ErrorKind.UnknownLinearSolver ∧ Mentions e.what "SUNLinSol_KLU") ∧
    (∃ e, Options.Options { scenarioB with linear_solver := "SUNLinSol_SPGMR" } = .error e ∧
      e.kind = ErrorKind.UnknownLinearSolver ∧ Mentions e.what "SUNLinSol_SPGMR") :=
  ⟨(dense_other_solver_unknown { scenarioB with linear_solver := "SUNLinSol_KLU" }
      rfl (by decide) (by decide)).imp
      fun _ he => ⟨he.1, he.2.1, (he.2.2 (by decide)).1⟩,
    (dense_other_solver_unknown { scenarioB with linear_solver := "SUNLinSol_SPGMR" }
      rfl (by decide) (by decide)).imp
      fun _ he => ⟨he.1, he.2.1, (he.2.2 (by decide)).1⟩⟩

/-- C13: on every successful validation `using_sparse_matrix` is false exactly when
the jacobian is "dense"; every validated configuration with a matrix-free jacobian
has `using_sparse_matrix = true` and `using_iterative_solver = true`. -/
theorem using_sparse_matrix_false_iff_dense (raw : RawConfiguration) (V : Options)
    (h : Options.Options raw = .ok V) :
    (V.using_sparse_matrix = false ↔ V.jacobian = "dense") ∧
    (V.jacobian = "matrix-free" →
      V.using_sparse_matrix = true ∧ V.using_iterative_solver = true) := by
  rcases (Options_ok_iff raw V).1 h with ⟨hc, rfl⟩ | ⟨hj, -, -, rfl⟩
  · rcases hc with ⟨hd, -⟩ | ⟨hs, -⟩
    · simp [built, hd]
    · simp [built, hs]
  · rcases hj with hj | hj <;> simp [built, hj]

/-- Witness for C13: Scenario C, a matrix-free jacobian, has both flags set. -/
theorem using_sparse_matrix_false_iff_dense_witness :
    Options.Options scenarioC = .ok (built scenarioC "BBDP" true true) ∧
    (built scenarioC "BBDP" true true).using_sparse_matrix = true ∧
    (built scenarioC "BBDP" true true).using_iterative_solver = true :=
  ⟨rfl, (using_sparse_matrix_false_iff_dense scenarioC
    (built scenarioC "BBDP" true true) rfl).2 rfl⟩

/-- C14: a validated configuration holds only closed-set values: the jacobian is
"sparse", "dense" or "matrix-free" and never "none", the linear solver is one of the
seven legal names, the preconditioner is "none" or "BBDP", and the preconditioner
"BBDP" implies `using_iterative_solver = true`. -/
theorem validated_values_closed (raw : RawConfiguration) (V : Options)
    (h : Options.Options raw = .ok V) :
    (V.jacobian = "sparse" ∨ V.jacobian = "dense" ∨ V.jacobian = "matrix-free") ∧
    V.jacobian ≠ "none" ∧
    (V.linear_solver = "SUNLinSol_Dense" ∨ V.linear_solver = "SUNLinSol_LapackDense" ∨
      V.linear_solver = "SUNLinSol_KLU" ∨ V.linear_solver = "SUNLinSol_SPBCGS" ∨
      V.linear_solver = "SUNLinSol_SPFGMR" ∨ V.linear_solver = "SUNLinSol_SPGMR" ∨
      V.linear_solver = "SUNLinSol_SPTFQMR") ∧
    (V.preconditioner = "none" ∨ V.preconditioner = "BBDP") ∧
    (V.preconditioner = "BBDP" → V.using_iterative_solver = true) := by
  rcases (Options_ok_iff raw V).1 h with ⟨hc, rfl⟩ | ⟨hj, hk, hp, rfl⟩
  · rcases hc with ⟨hd, hl | hl⟩ | ⟨hs, hl⟩ <;> simp [built, *]
  · refine ⟨?_, ?_, ?_, hp, fun _ => rfl⟩
    · rcases hj with hj | hj <;> simp [built, hj]
    · rcases hj with hj | hj <;> simp [built, hj]
    · exact Or.inr (Or.inr (Or.inr hk))

/-- Witness for C14: Scenario B validates to dense / SUNLinSol_Dense / "none". -/
theorem validated_values_closed_witness :
    Options.Options scenarioB = .ok (built scenarioB "none" false false) ∧
    (built scenarioB "none" false false).jacobian ≠ "none" ∧
    ((built scenarioB "none" false false).preconditioner = "none" ∨
      (built scenarioB "none" false false).preconditioner = "BBDP") :=
  ⟨rfl,
    (validated_values_closed scenarioB (built scenarioB "none" false false) rfl).2.1,
    (validated_values_closed scenarioB (built scenarioB "none" false false)
      rfl).2.2.2.1⟩

/-- C15: on every successful validation the linear solver agrees with the storage
flag: SUNLinSol_KLU implies `using_sparse_matrix = true`, SUNLinSol_Dense and
SUNLinSol_LapackDense imply `using_sparse_matrix = false`, and a matrix-free
jacobian is never validated with one of the three direct solvers. -/
theorem linear_solver_agrees_with_storage (raw : RawConfiguration) (V : Options)
    (h : Options.Options raw = .ok V) :
    (V.linear_solver = "SUNLinSol_KLU" → V.using_sparse_matrix = true) ∧
    ((V.linear_solver = "SUNLinSol_Dense" ∨ V.linear_solver = "SUNLinSol_LapackDense") →
      V.using_sparse_matrix = false) ∧
    (V.jacobian = "matrix-free" →
      V.linear_solver ≠ "SUNLinSol_Dense" ∧ V.linear_solver ≠ "SUNLinSol_LapackDense" ∧
        V.linear_solver ≠ "SUNLinSol_KLU" ∧ V.using_iterative_solver = true) := by
  rcases (Options_ok_iff raw V).1 h with ⟨hc, rfl⟩ | ⟨hj, hk, -, rfl⟩
  · rcases hc with ⟨hd, hl | hl⟩ | ⟨hs, hl⟩ <;> simp [built, *]
  · have hn := krylov_not_direct hk
    refine ⟨fun hl => rfl, ?_, fun _ => ⟨hn.1, hn.2.1, hn.2.2, rfl⟩⟩
    rintro (hl | hl)
    · exact absurd hl hn.1
    · exact absurd hl hn.2.1

/-- Witness for C15: Scenario A, SUNLinSol_KLU, stores a sparse matrix. -/
theorem linear_solver_agrees_with_storage_witness :
    Options.Options scenarioA = .ok (built scenarioA "none" true false) ∧
    (built scenarioA "none" true false).using_sparse_matrix = true :=
  ⟨rfl, (linear_solver_agrees_with_storage scenarioA
    (built scenarioA "none" true false) rfl).1 rfl⟩

/-- C16: error priority. The preconditioner error occurs only with a sparse or
matrix-free jacobian and a Krylov linear solver; when the jacobian is one of the
four legal values and the (jacobian, linear_solver) pair is not compatible, the
error is a linear-solver error, whatever the preconditioner is. -/
theorem linear_solver_error_before_preconditioner (raw : RawConfiguration) :
    (∀ e, Options.Options raw = .error e → e.kind = ErrorKind.InvalidPreconditioner →
      (raw.jacobian = "sparse" ∨ raw.jacobian = "matrix-free") ∧
        IsKrylov raw.linear_solver) ∧
    (LegalJacobian raw.jacobian → ¬ Compatible raw.jacobian raw.linear_solver →
      ∃ e, Options.Options raw = .error e ∧
        (e.kind = ErrorKind.IncompatibleLinearSolver ∨
          e.kind = ErrorKind.UnknownLinearSolver)) := by
  constructor
  · intro e he hk
    rcases Options_error_cases raw e he with ⟨-, rfl⟩ | ⟨-, -, -, rfl⟩ | ⟨-, -, rfl⟩ |
      ⟨-, rfl⟩ | ⟨hj, hkr, -, -, rfl⟩
    · exact absurd hk (by simp)
    · exact absurd hk (by simp)
    · exact absurd hk (by simp)
    · exact absurd hk (by simp)
    · exact ⟨hj, hkr⟩
  · intro hl hc
    rcases Options_outcome raw with ⟨hn, -⟩ | ⟨-, -, -, h⟩ | ⟨-, -, h⟩ | ⟨-, h⟩ |
      ⟨hj, hkr, -, -, -⟩ | ⟨hd, -⟩ | ⟨hj, hkr, -, -⟩
    · exact absurd hl hn
    · exact ⟨_, h, Or.inl rfl⟩
    · exact ⟨_, h, Or.inl rfl⟩
    · exact ⟨_, h, Or.inr rfl⟩
    · exact absurd (Or.inr ⟨hj, hkr⟩) hc
    · exact absurd (Or.inl hd) hc
    · exact absurd (Or.inr ⟨hj, hkr⟩) hc

/-- Witness for C16: a dense jacobian with SUNLinSol_KLU and the unrecognised
preconditioner "XYZ" fails with a linear-solver error. -/
theorem linear_solver_error_before_preconditioner_witness :
    ∃ e, Options.Options ⟨false, "dense", "XYZ", 10, "SUNLinSol_KLU", 1, 1⟩ = .error e ∧
      (e.kind = ErrorKind.IncompatibleLinearSolver ∨
        e.kind = ErrorKind.UnknownLinearSolver) :=
  (linear_solver_error_before_preconditioner
    ⟨false, "dense", "XYZ", 10, "SUNLinSol_KLU", 1, 1⟩).2 (by decide) (by decide)

/-- C17: non-interference of the copied members. Two raw configurations that agree
on jacobian, linear_solver and preconditioner either both fail with the same error
(kind and message) or both succeed with the same `using_sparse_matrix`,
`using_iterative_solver` and resulting preconditioner. -/
theorem copied_fields_do_not_interfere (raw₁ raw₂ : RawConfiguration)
    (hj : raw₁.jacobian = raw₂.jacobian)
    (hl : raw₁.linear_solver = raw₂.linear_solver)
    (hp : raw₁.preconditioner = raw₂.preconditioner) :
    (∃ e, Options.Options raw₁ = .error e ∧ Options.Options raw₂ = .error e) ∨
    (∃ V₁ V₂, Options.Options raw₁ = .ok V₁ ∧ Options.Options raw₂ = .ok V₂ ∧
      V₁.using_sparse_matrix = V₂.using_sparse_matrix ∧
      V₁.using_iterative_solver = V₂.using_iterative_solver ∧
      V₁.preconditioner = V₂.preconditioner) := by
  unfold Options.Options
  rw [← hj, ← hl, ← hp]
  cases jacobianStage raw₁.jacobian with
  | error e => exact Or.inl ⟨e, rfl, rfl⟩
  | ok s =>
    cases linearSolverStage raw₁.jacobian raw₁.linear_solver with
    | error e => exact Or.inl ⟨e, rfl, rfl⟩
    | ok i =>
      dsimp only
      cases preconditionerStage i raw₁.preconditioner with
      | error e => exact Or.inl ⟨e, rfl, rfl⟩
      | ok p => exact Or.inr ⟨_, _, rfl, rfl, rfl, rfl, rfl⟩

/-- Witness for C17: Scenario C and the same triple with print_stats cleared and
zero and negative integers validate to the same flags and preconditioner. -/
theorem copied_fields_do_not_interfere_witness :
    (∃ e, Options.Options scenarioC = .error e ∧
      Options.Options ⟨false, "matrix-free", "BBDP", -3, "SUNLinSol_SPGMR", 0, -1⟩ =
        .error e) ∨
    (∃ V₁ V₂, Options.Options scenarioC = .ok V₁ ∧
      Options.Options ⟨false, "matrix-free", "BBDP", -3, "SUNLinSol_SPGMR", 0, -1⟩ =
        .ok V₂ ∧
      V₁.using_sparse_matrix = V₂.using_sparse_matrix ∧
      V₁.using_iterative_solver = V₂.using_iterative_solver ∧
      V₁.preconditioner = V₂.preconditioner) :=
  copied_fields_do_not_interfere scenarioC
    ⟨false, "matrix-free", "BBDP", -3, "SUNLinSol_SPGMR", 0, -1⟩ rfl rfl rfl

end Idaklu
